import Mathlib

/-!
Shallow embedding of the pomelo webhook transaction/adjustment ledger core
(Go repository `github.com/jailtonjunior/pomelo`): the Money value object,
the Purchase/Adjustment entities and their constructors, the validation
engine, the in-memory repository, and the application service, together
with theorems settling the specification claims.

Go `int64` arithmetic wraps on overflow (two's complement); `Money.Add` is
therefore modelled with an explicit wrap at 2^64. Go maps are modelled as
association lists with unique keys (insertion replaces). The repository's
mutex serialises all writes, so the stateful code is modelled as explicit
state passing: each operation is a function from the repository state to a
new state plus its result.
-/

namespace Pomelo

/-- The sentinel error values of `internal/domain/errors.go`. Go wraps them
with extra text via `fmt.Errorf("%w: ...")`; `errors.Is` matching on the
sentinel is modelled by the bare constructor. -/
inductive PomeloError where
  | transactionNotFound
  | purchaseNotApproved
  | exceedsOriginalAmount
  | negativeAmount
  | amountOutOfRange
  | currencyMismatch
  | invalidTransactionType
  | duplicateIdempotencyKey
  | originalTransactionRequired
  | duplicateTransactionID
  | invalidInput
deriving DecidableEq, Repr

/-- Two's-complement wrap of an unbounded integer into the `int64` range,
matching Go's defined overflow behaviour for signed addition. -/
def wrap64 (x : Int) : Int := (x + 2 ^ 63) % 2 ^ 64 - 2 ^ 63

/-- `domain.Money`: an amount in minor units tagged with a currency.
The Go field `Amount` is `int64`; it is modelled as `Int`, with the wrap
applied at the one arithmetic operation (`Add`). -/
structure Money where
  Amount : Int
  Currency : String
deriving DecidableEq, Repr

/-- `domain.NewMoney`: rejects negative amounts. -/
def NewMoney (amount : Int) (currency : String) : Except PomeloError Money :=
  if amount < 0 then .error .negativeAmount
  else .ok ⟨amount, currency⟩

/-- `Money.Add`: currency-checked addition; the sum is Go `int64` addition,
hence wraps at 2^64. -/
def Money.Add (m other : Money) : Except PomeloError Money :=
  if m.Currency ≠ other.Currency then .error .currencyMismatch
  else .ok ⟨wrap64 (m.Amount + other.Amount), m.Currency⟩

/-- `Money.GreaterThan`: currency-checked strict comparison. -/
def Money.GreaterThan (m other : Money) : Except PomeloError Bool :=
  if m.Currency ≠ other.Currency then .error .currencyMismatch
  else .ok (decide (m.Amount > other.Amount))

/-- `domain.MinPurchaseAmount` (R$1,00 in cents). -/
def MinPurchaseAmount : Int := 100
/-- `domain.MaxPurchaseAmount` (R$5.000,00 in cents). -/
def MaxPurchaseAmount : Int := 500000

/-- `domain.TypePurchase`. Transaction types are Go string types. -/
def TypePurchase : String := "PURCHASE"
/-- `domain.TypeReversalPurchase`. -/
def TypeReversalPurchase : String := "REVERSAL_PURCHASE"
/-- `domain.TypeRefund`. -/
def TypeRefund : String := "REFUND"
/-- `domain.StatusApproved`. -/
def StatusApproved : String := "APPROVED"
/-- `domain.StatusRejected`. -/
def StatusRejected : String := "REJECTED"

/-- `domain.AmountBreakdown`: four parallel Money views. -/
structure AmountBreakdown where
  Local : Money
  Transaction : Money
  Settlement : Money
  Original : Money
deriving DecidableEq, Repr

/-- `domain.Merchant` (opaque passthrough metadata). -/
structure Merchant where
  ID : String
  MCC : String
  Address : String
  Name : String
  City : String
  State : String
deriving DecidableEq, Repr

/-- `domain.Event`; `CreatedAt` (a `time.Time`) is modelled as an opaque
integer timestamp, never inspected by the core. -/
structure Event where
  ID : String
  CreatedAt : Int
  IdempotencyKey : String
deriving DecidableEq, Repr

/-- `domain.Transaction`, the aggregate root for PURCHASE events. The Go
field `Type` is renamed `TxType` (`Type` is a Lean keyword). -/
structure Transaction where
  ID : String
  TxType : String
  Status : String
  Amount : AmountBreakdown
  Merchant : Merchant
  Event : Event
  OriginalTransactionID : String
  UserID : String
  CardID : String
  Country : String
  Currency : String
  PointOfSale : String
deriving DecidableEq, Repr

/-- `domain.Adjustment`, representing REVERSAL_PURCHASE or REFUND. -/
structure Adjustment where
  ID : String
  TxType : String
  Status : String
  Amount : AmountBreakdown
  Merchant : Merchant
  Event : Event
  OriginalTransactionID : String
  UserID : String
  CardID : String
  Country : String
  Currency : String
  PointOfSale : String
deriving DecidableEq, Repr

/-- `domain.NewPurchase`: validates in order non-empty id, non-empty event
id and idempotency key, then the amount range; the Go struct literal leaves
`OriginalTransactionID` at its zero value `""`. -/
def NewPurchase (id status : String) (amount : AmountBreakdown)
    (merchant : Merchant) (event : Event)
    (userID cardID country currency pointOfSale : String) :
    Except PomeloError Transaction :=
  if id = "" then .error .invalidInput
  else if event.ID = "" ∨ event.IdempotencyKey = "" then .error .invalidInput
  else if amount.Local.Amount < MinPurchaseAmount ∨ amount.Local.Amount > MaxPurchaseAmount then
    .error .amountOutOfRange
  else .ok
    { ID := id, TxType := TypePurchase, Status := status, Amount := amount,
      Merchant := merchant, Event := event, OriginalTransactionID := "",
      UserID := userID, CardID := cardID, Country := country,
      Currency := currency, PointOfSale := pointOfSale }

/-- `domain.NewAdjustment`: validates in order the type (must be
REVERSAL_PURCHASE or REFUND), non-empty original transaction id, non-empty
id, then non-empty event id and idempotency key. -/
def NewAdjustment (id txType status : String) (amount : AmountBreakdown)
    (merchant : Merchant) (event : Event) (originalTransactionID : String)
    (userID cardID country currency pointOfSale : String) :
    Except PomeloError Adjustment :=
  if txType ≠ TypeReversalPurchase ∧ txType ≠ TypeRefund then
    .error .invalidTransactionType
  else if originalTransactionID = "" then .error .originalTransactionRequired
  else if id = "" then .error .invalidInput
  else if event.ID = "" ∨ event.IdempotencyKey = "" then .error .invalidInput
  else .ok
    { ID := id, TxType := txType, Status := status, Amount := amount,
      Merchant := merchant, Event := event,
      OriginalTransactionID := originalTransactionID,
      UserID := userID, CardID := cardID, Country := country,
      Currency := currency, PointOfSale := pointOfSale }

/-- `Transaction.IsApprovedPurchase`. -/
def Transaction.IsApprovedPurchase (t : Transaction) : Bool :=
  t.TxType = TypePurchase ∧ t.Status = StatusApproved

/-- `Transaction.CanReceiveAdjustment`. -/
def Transaction.CanReceiveAdjustment (t : Transaction) : Bool :=
  t.IsApprovedPurchase

/-- `Adjustment.ValidateAgainstPurchase`: the validation engine. Returns
`none` for success, `some e` for the Go error `e`. -/
def Adjustment.ValidateAgainstPurchase (a : Adjustment) (original : Transaction)
    (existingTotal : Money) : Option PomeloError :=
  if ¬ original.CanReceiveAdjustment then some .purchaseNotApproved
  else if a.Status ≠ StatusApproved then none
  else
    match existingTotal.Add a.Amount.Local with
    | .error e => some e
    | .ok newTotal =>
      match newTotal.GreaterThan original.Amount.Local with
      | .error e => some e
      | .ok exceeds => if exceeds then some .exceedsOriginalAmount else none

/-! ### The in-memory repository (`internal/adapters/output/memory`)

Go maps are modelled as association lists with unique keys: `mapInsert`
removes any existing entry for the key and appends the new binding, and
`mapLookup`/`mapContains` scan for the key. All repository methods run
under the repository mutex, so each is a single atomic step on the state. -/

/-- Lookup in an association-list map (Go `m[k]` with the `ok` flag). -/
def mapLookup {α : Type} (l : List (String × α)) (k : String) : Option α :=
  (l.find? (fun p => p.fst = k)).map Prod.snd

/-- Key-membership test in an association-list map. -/
def mapContains {α : Type} (l : List (String × α)) (k : String) : Bool :=
  (mapLookup l k).isSome

/-- Insertion into an association-list map (Go `m[k] = v`): replaces any
existing binding of `k`. -/
def mapInsert {α : Type} (l : List (String × α)) (k : String) (v : α) :
    List (String × α) :=
  l.filter (fun p => p.fst ≠ k) ++ [(k, v)]

/-- The three mappings owned by `memory.Repository`. -/
structure RepoState where
  transactions : List (String × Transaction)
  adjustments : List (String × List Adjustment)
  idempotencyKeys : List (String × String)
deriving DecidableEq, Repr

/-- `memory.NewRepository`: all three maps empty. -/
def emptyRepo : RepoState := ⟨[], [], []⟩

/-- `Repository.SaveTransaction`: under one exclusive critical section,
check the idempotency key, then the transaction ID, then insert into both
mappings. Returns the unchanged state together with the Go error, if any. -/
def SaveTransaction (r : RepoState) (tx : Transaction) :
    RepoState × Option PomeloError :=
  if mapContains r.idempotencyKeys tx.Event.IdempotencyKey then
    (r, some .duplicateIdempotencyKey)
  else if mapContains r.transactions tx.ID then
    (r, some .duplicateTransactionID)
  else
    ({ r with
        idempotencyKeys := mapInsert r.idempotencyKeys tx.Event.IdempotencyKey tx.ID,
        transactions := mapInsert r.transactions tx.ID tx }, none)

/-- `Repository.SaveAdjustment`: under one exclusive critical section,
check the idempotency key, then append the adjustment to its original
transaction's list (Go `append(r.adjustments[id], adj)`, where a missing
key reads as the empty slice). -/
def SaveAdjustment (r : RepoState) (adj : Adjustment) :
    RepoState × Option PomeloError :=
  if mapContains r.idempotencyKeys adj.Event.IdempotencyKey then
    (r, some .duplicateIdempotencyKey)
  else
    ({ r with
        idempotencyKeys := mapInsert r.idempotencyKeys adj.Event.IdempotencyKey adj.ID,
        adjustments := mapInsert r.adjustments adj.OriginalTransactionID
          (((mapLookup r.adjustments adj.OriginalTransactionID).getD []) ++ [adj]) },
     none)

/-- `Repository.GetTransactionByID`: absence is `ErrTransactionNotFound`. -/
def GetTransactionByID (r : RepoState) (id : String) :
    Except PomeloError Transaction :=
  match mapLookup r.transactions id with
  | none => .error .transactionNotFound
  | some tx => .ok tx

/-- `Repository.GetAdjustmentsByTransactionID`: the Go method returns a
defensive clone; under value semantics this is the list itself. -/
def GetAdjustmentsByTransactionID (r : RepoState) (originalTxID : String) :
    List Adjustment :=
  (mapLookup r.adjustments originalTxID).getD []

/-- `Repository.GetByIdempotencyKey`: Go's `(string, bool)` pair is
modelled as an `Option`. -/
def GetByIdempotencyKey (r : RepoState) (key : String) : Option String :=
  mapLookup r.idempotencyKeys key

/-- `Repository.ListTransactions`: snapshot of all stored transactions. -/
def ListTransactions (r : RepoState) : List Transaction :=
  r.transactions.map Prod.snd

/-! ### The application service (`internal/application/service.go`) -/

/-- `ports.ProcessTransactionCommand`: the flat primitive command record.
`EventCreatedAt` is the opaque timestamp. -/
structure ProcessTransactionCommand where
  TransactionID : String
  TransactionType : String
  TransactionStatus : String
  OriginalTransactionID : String
  LocalAmount : Int
  LocalCurrency : String
  TxAmount : Int
  TxCurrency : String
  SettlementAmount : Int
  SettlementCurrency : String
  OriginalAmount : Int
  OriginalCurrency : String
  MerchantID : String
  MerchantMCC : String
  MerchantAddress : String
  MerchantName : String
  MerchantCity : String
  MerchantState : String
  EventID : String
  EventCreatedAt : Int
  IdempotencyKey : String
  UserID : String
  CardID : String
  Country : String
  Currency : String
  PointOfSale : String
deriving DecidableEq, Repr

/-- `ports.ProcessTransactionResult`. -/
structure ProcessTransactionResult where
  TransactionID : String
  Idempotent : Bool
deriving DecidableEq, Repr

/-- The zero-valued `ports.ProcessTransactionResult{}` returned by Go on
hard failures. -/
def emptyResult : ProcessTransactionResult := ⟨"", false⟩

/-- The `AmountBreakdown` built by the service from the four command
(amount, currency) pairs, failing on the first negative amount. -/
def buildAmount (cmd : ProcessTransactionCommand) :
    Except PomeloError AmountBreakdown :=
  match NewMoney cmd.LocalAmount cmd.LocalCurrency with
  | .error e => .error e
  | .ok localMoney =>
  match NewMoney cmd.TxAmount cmd.TxCurrency with
  | .error e => .error e
  | .ok txMoney =>
  match NewMoney cmd.SettlementAmount cmd.SettlementCurrency with
  | .error e => .error e
  | .ok settlementMoney =>
  match NewMoney cmd.OriginalAmount cmd.OriginalCurrency with
  | .error e => .error e
  | .ok originalMoney =>
    .ok ⟨localMoney, txMoney, settlementMoney, originalMoney⟩

/-- The `Merchant` built by the service from the command. -/
def buildMerchant (cmd : ProcessTransactionCommand) : Merchant :=
  ⟨cmd.MerchantID, cmd.MerchantMCC, cmd.MerchantAddress, cmd.MerchantName,
   cmd.MerchantCity, cmd.MerchantState⟩

/-- The `Event` built by the service from the command. -/
def buildEvent (cmd : ProcessTransactionCommand) : Event :=
  ⟨cmd.EventID, cmd.EventCreatedAt, cmd.IdempotencyKey⟩

/-- `Service.processPurchase`: advisory idempotency check, domain object
construction, `NewPurchase`, then the atomic `SaveTransaction` with the
idempotent-replay translation of `ErrDuplicateIdempotencyKey`. Returns the
new repository state, the result record and the Go error, if any. -/
def processPurchase (r : RepoState) (cmd : ProcessTransactionCommand) :
    RepoState × ProcessTransactionResult × Option PomeloError :=
  if (GetByIdempotencyKey r cmd.IdempotencyKey).isSome then
    (r, ⟨cmd.TransactionID, true⟩, some .duplicateIdempotencyKey)
  else
    match buildAmount cmd with
    | .error e => (r, emptyResult, some e)
    | .ok amount =>
    match NewPurchase cmd.TransactionID cmd.TransactionStatus amount
        (buildMerchant cmd) (buildEvent cmd)
        cmd.UserID cmd.CardID cmd.Country cmd.Currency cmd.PointOfSale with
    | .error e => (r, emptyResult, some e)
    | .ok tx =>
      match SaveTransaction r tx with
      | (r2, some .duplicateIdempotencyKey) =>
        (r2, ⟨cmd.TransactionID, true⟩, some .duplicateIdempotencyKey)
      | (r2, some e) => (r2, emptyResult, some e)
      | (r2, none) => (r2, ⟨tx.ID, false⟩, none)

/-- `Service.sumExistingAdjustments` loop body: skip non-approved
adjustments, add the approved ones. -/
def sumAdjLoop (total : Money) : List Adjustment → Except PomeloError Money
  | [] => .ok total
  | adj :: rest =>
    if adj.Status ≠ StatusApproved then sumAdjLoop total rest
    else
      match total.Add adj.Amount.Local with
      | .error e => .error e
      | .ok t => sumAdjLoop t rest

/-- `Service.sumExistingAdjustments`: the running total starts at
`NewMoney(0, currency)`. -/
def sumExistingAdjustments (adjs : List Adjustment) (currency : String) :
    Except PomeloError Money :=
  match NewMoney 0 currency with
  | .error e => .error e
  | .ok total => sumAdjLoop total adjs

/-- `Service.processAdjustment`: empty-reference check first, advisory
idempotency check, fetch of the original purchase, domain object
construction, running-total computation, validation, then the atomic
`SaveAdjustment` with the idempotent-replay translation. -/
def processAdjustment (r : RepoState) (cmd : ProcessTransactionCommand) :
    RepoState × ProcessTransactionResult × Option PomeloError :=
  if cmd.OriginalTransactionID = "" then
    (r, emptyResult, some .originalTransactionRequired)
  else if (GetByIdempotencyKey r cmd.IdempotencyKey).isSome then
    (r, ⟨cmd.TransactionID, true⟩, some .duplicateIdempotencyKey)
  else
    match GetTransactionByID r cmd.OriginalTransactionID with
    | .error e => (r, emptyResult, some e)
    | .ok original =>
    match buildAmount cmd with
    | .error e => (r, emptyResult, some e)
    | .ok amount =>
    match NewAdjustment cmd.TransactionID cmd.TransactionType
        cmd.TransactionStatus amount (buildMerchant cmd) (buildEvent cmd)
        cmd.OriginalTransactionID
        cmd.UserID cmd.CardID cmd.Country cmd.Currency cmd.PointOfSale with
    | .error e => (r, emptyResult, some e)
    | .ok adj =>
    match sumExistingAdjustments
        (GetAdjustmentsByTransactionID r cmd.OriginalTransactionID)
        cmd.LocalCurrency with
    | .error e => (r, emptyResult, some e)
    | .ok existingTotal =>
      match adj.ValidateAgainstPurchase original existingTotal with
      | some e => (r, emptyResult, some e)
      | none =>
        match SaveAdjustment r adj with
        | (r2, some .duplicateIdempotencyKey) =>
          (r2, ⟨cmd.TransactionID, true⟩, some .duplicateIdempotencyKey)
        | (r2, some e) => (r2, emptyResult, some e)
        | (r2, none) => (r2, ⟨adj.ID, false⟩, none)

/-- `Service.ProcessTransaction`: dispatch on the declared transaction
type; unknown types fail with `ErrInvalidTransactionType`. -/
def ProcessTransaction (r : RepoState) (cmd : ProcessTransactionCommand) :
    RepoState × ProcessTransactionResult × Option PomeloError :=
  if cmd.TransactionType = TypePurchase then processPurchase r cmd
  else if cmd.TransactionType = TypeReversalPurchase ∨ cmd.TransactionType = TypeRefund then
    processAdjustment r cmd
  else (r, emptyResult, some .invalidTransactionType)

/-- The mathematical (unwrapped) sum of the local amounts of the APPROVED
adjustments in a list: the quantity the spec's budget invariant bounds. -/
def approvedLocalSum (adjs : List Adjustment) : Int :=
  (adjs.filter (fun a => a.Status = StatusApproved)).foldl
    (fun s a => s + a.Amount.Local.Amount) 0

/-! ### Commit traces

The repository mutex totally orders the commits of concurrent callers, so
any concurrent execution of `SaveTransaction`/`SaveAdjustment` calls is
modelled by a sequence of atomic steps. -/

/-- A single committed-or-attempted write against the repository. -/
inductive RepoOp where
  | saveTx (tx : Transaction)
  | saveAdj (adj : Adjustment)
deriving DecidableEq, Repr

/-- The idempotency key a repository write carries. -/
def RepoOp.key : RepoOp → String
  | .saveTx tx => tx.Event.IdempotencyKey
  | .saveAdj adj => adj.Event.IdempotencyKey

/-- Apply one repository write. -/
def applyOp (r : RepoState) : RepoOp → RepoState × Option PomeloError
  | .saveTx tx => SaveTransaction r tx
  | .saveAdj adj => SaveAdjustment r adj

/-- Run a sequence of repository writes, keeping the evolving state. -/
def runOps (r : RepoState) (ops : List RepoOp) : RepoState :=
  ops.foldl (fun s op => (applyOp s op).fst) r

/-! ### Purchase creation path

`Service.processPurchase` constructs the `Money` values first (so a
negative amount fails in `NewMoney`) and only then calls `NewPurchase`
(where the range check runs). -/

/-- Purchase creation through `NewPurchase` as `Service.processPurchase`
performs it for a uniform amount breakdown (the shape the repository's
test helper `makeAmountBreakdown` builds): `NewMoney` first, then
`NewPurchase`. -/
def purchaseFromAmount (a : Int) (currency id status : String)
    (merchant : Merchant) (event : Event)
    (userID cardID country currency2 pointOfSale : String) :
    Except PomeloError Transaction :=
  match NewMoney a currency with
  | .error e => .error e
  | .ok m =>
    NewPurchase id status ⟨m, m, m, m⟩ merchant event
      userID cardID country currency2 pointOfSale

/-- The Transaction `Service.processPurchase` commits for a valid PURCHASE
command: the four Money values, merchant and event built from the command,
passed through `NewPurchase`. -/
def purchaseOfCommand (cmd : ProcessTransactionCommand) : Transaction :=
  { ID := cmd.TransactionID, TxType := TypePurchase,
    Status := cmd.TransactionStatus,
    Amount := ⟨⟨cmd.LocalAmount, cmd.LocalCurrency⟩,
               ⟨cmd.TxAmount, cmd.TxCurrency⟩,
               ⟨cmd.SettlementAmount, cmd.SettlementCurrency⟩,
               ⟨cmd.OriginalAmount, cmd.OriginalCurrency⟩⟩,
    Merchant := buildMerchant cmd, Event := buildEvent cmd,
    OriginalTransactionID := "", UserID := cmd.UserID, CardID := cmd.CardID,
    Country := cmd.Country, Currency := cmd.Currency,
    PointOfSale := cmd.PointOfSale }

/-! ### Concrete fixtures (mirroring the repository's test helpers) -/

/-- The uniform `AmountBreakdown` built by the test helper
`makeAmountBreakdown` (all four views the same BRL amount). -/
def fixtureBreakdown (amount : Int) : AmountBreakdown :=
  ⟨⟨amount, "BRL"⟩, ⟨amount, "BRL"⟩, ⟨amount, "BRL"⟩, ⟨amount, "BRL"⟩⟩

/-- The purchase built by the test helper `makePurchase` of
`repository_test.go`. -/
def fixturePurchase (id key : String) (amount : Int) : Transaction :=
  { ID := id, TxType := TypePurchase, Status := StatusApproved,
    Amount := fixtureBreakdown amount,
    Merchant := ⟨"m1", "", "", "Store", "", ""⟩,
    Event := ⟨"evt-" ++ id, 0, key⟩, OriginalTransactionID := "",
    UserID := "u1", CardID := "card1", Country := "BR", Currency := "BRL",
    PointOfSale := "POS" }

/-- The refund built by the test helper `makeAdjustment` of
`repository_test.go`, generalised over the status. -/
def fixtureAdjustment (id originalID key status : String) (amount : Int) :
    Adjustment :=
  { ID := id, TxType := TypeRefund, Status := status,
    Amount := fixtureBreakdown amount,
    Merchant := ⟨"m1", "", "", "Store", "", ""⟩,
    Event := ⟨"evt-" ++ id, 0, key⟩, OriginalTransactionID := originalID,
    UserID := "u1", CardID := "card1", Country := "BR", Currency := "BRL",
    PointOfSale := "POS" }

/-- The purchase command built by the test helper `makePurchaseCmd` of
`service_test.go`. -/
def makePurchaseCmd (id status key : String) (amount : Int) :
    ProcessTransactionCommand :=
  { TransactionID := id, TransactionType := "PURCHASE",
    TransactionStatus := status, OriginalTransactionID := "",
    LocalAmount := amount, LocalCurrency := "BRL",
    TxAmount := amount, TxCurrency := "BRL",
    SettlementAmount := amount, SettlementCurrency := "BRL",
    OriginalAmount := amount, OriginalCurrency := "BRL",
    MerchantID := "m1", MerchantMCC := "", MerchantAddress := "",
    MerchantName := "Store", MerchantCity := "", MerchantState := "",
    EventID := "evt-" ++ id, EventCreatedAt := 0, IdempotencyKey := key,
    UserID := "u1", CardID := "card1", Country := "BR", Currency := "BRL",
    PointOfSale := "POS" }

/-- The adjustment command built by the test helper `makeAdjustCmd` of
`service_test.go`. -/
def makeAdjustCmd (id txType status originalID key : String) (amount : Int) :
    ProcessTransactionCommand :=
  { makePurchaseCmd id status key amount with
      TransactionType := txType, OriginalTransactionID := originalID }

/-! ### The int64-overflow trace

Three webhook deliveries: an approved purchase of 10000 cents, an approved
refund of 1 cent, then an approved refund of 9223372036854775807 cents
(`math.MaxInt64`). In Go the running total `1 + math.MaxInt64` wraps to
`math.MinInt64`, which is not greater than 10000, so the third delivery
passes `ValidateAgainstPurchase` and is committed. -/

/-- Step 1 of the overflow trace: approved purchase of 10000. -/
def overflowCmd1 : ProcessTransactionCommand :=
  makePurchaseCmd "tx1" StatusApproved "key1" 10000

/-- Step 2 of the overflow trace: approved refund of 1. -/
def overflowCmd2 : ProcessTransactionCommand :=
  makeAdjustCmd "adj1" TypeRefund StatusApproved "tx1" "key2" 1

/-- Step 3 of the overflow trace: approved refund of `math.MaxInt64`. -/
def overflowCmd3 : ProcessTransactionCommand :=
  makeAdjustCmd "adj2" TypeRefund StatusApproved "tx1" "key3" 9223372036854775807

/-- Ledger state after step 1 of the overflow trace. -/
def overflowState1 : RepoState := (ProcessTransaction emptyRepo overflowCmd1).fst
/-- Ledger state after step 2 of the overflow trace. -/
def overflowState2 : RepoState := (ProcessTransaction overflowState1 overflowCmd2).fst
/-- Ledger state after step 3 of the overflow trace. -/
def overflowState3 : RepoState := (ProcessTransaction overflowState2 overflowCmd3).fst

/-! ## Map lemmas -/

/-- Filtering away a key removes every match `find?` could return. -/
theorem find?_filter_ne {α : Type} (l : List (String × α)) (k : String) :
    (l.filter (fun p => p.fst ≠ k)).find? (fun p => p.fst = k) = none := by
  induction l with
  | nil => rfl
  | cons p rest ih =>
    by_cases h : p.fst = k
    · simp [List.filter_cons, h, ih]
    · simp [List.filter_cons, List.find?_cons, h, ih]

/-- Looking up the key just inserted finds the new binding. -/
theorem mapLookup_insert_self {α : Type} (l : List (String × α)) (k : String)
    (v : α) : mapLookup (mapInsert l k v) k = some v := by
  unfold mapLookup mapInsert
  rw [List.find?_append, find?_filter_ne]
  simp [List.find?_cons]

/-- Filtering away one key does not change `find?` for a different key. -/
theorem find?_filter_eq {α : Type} (l : List (String × α)) (k k' : String)
    (h : k' ≠ k) :
    (l.filter (fun p => p.fst ≠ k)).find? (fun p => p.fst = k') =
      l.find? (fun p => p.fst = k') := by
  induction l with
  | nil => rfl
  | cons p rest ih =>
    by_cases hp : p.fst = k
    · rw [List.filter_cons_of_neg (by simp [hp]), ih,
        List.find?_cons_of_neg _ (by simp [hp]; exact fun hc => h hc.symm)]
    · by_cases hq : p.fst = k'
      · rw [List.filter_cons_of_pos (by simp [hp]),
          List.find?_cons_of_pos _ (by simp [hq]),
          List.find?_cons_of_pos _ (by simp [hq])]
      · rw [List.filter_cons_of_pos (by simp [hp]),
          List.find?_cons_of_neg _ (by simp [hq]),
          List.find?_cons_of_neg _ (by simp [hq]), ih]

/-- Looking up a different key after an insertion is unchanged. -/
theorem mapLookup_insert_ne {α : Type} (l : List (String × α)) (k k' : String)
    (v : α) (h : k' ≠ k) :
    mapLookup (mapInsert l k v) k' = mapLookup l k' := by
  unfold mapLookup mapInsert
  rw [List.find?_append, find?_filter_eq l k k' h]
  cases hfind : l.find? (fun p => p.fst = k') with
  | none =>
    have hne : ¬ k = k' := fun hc => h hc.symm
    simp [List.find?_cons, hne]
  | some p => simp

/-- A key that is absent is left untouched by the filter `mapInsert` does. -/
theorem filter_ne_of_lookup_none {α : Type} (l : List (String × α))
    (k : String) (h : mapLookup l k = none) :
    l.filter (fun p => p.fst ≠ k) = l := by
  unfold mapLookup at h
  rw [Option.map_eq_none', List.find?_eq_none] at h
  induction l with
  | nil => rfl
  | cons p rest ih =>
    have hp : ¬ p.fst = k := by
      have := h p (List.mem_cons_self p rest)
      simpa using this
    rw [List.filter_cons_of_pos (by simp [hp])]
    rw [ih (fun x hx => h x (List.mem_cons_of_mem p hx))]

/-! ## Claim theorems -/

/-- Claim C4: `SaveTransaction` checks the idempotency-key collision first
(returning DuplicateIdempotencyKey even when the transaction ID also
collides), then the transaction-ID collision (DuplicateTransactionID), and
only when both checks pass inserts into both the transactions mapping and
the idempotency-key mapping; on any error return the ledger state is
unchanged. -/
theorem C4_saveTransaction_check_order (s : RepoState) (tx : Transaction) :
    (mapContains s.idempotencyKeys tx.Event.IdempotencyKey = true →
      SaveTransaction s tx = (s, some .duplicateIdempotencyKey)) ∧
    (mapContains s.idempotencyKeys tx.Event.IdempotencyKey = false →
      mapContains s.transactions tx.ID = true →
      SaveTransaction s tx = (s, some .duplicateTransactionID)) ∧
    (mapContains s.idempotencyKeys tx.Event.IdempotencyKey = false →
      mapContains s.transactions tx.ID = false →
      SaveTransaction s tx =
        ({ s with
            idempotencyKeys :=
              mapInsert s.idempotencyKeys tx.Event.IdempotencyKey tx.ID,
            transactions := mapInsert s.transactions tx.ID tx }, none)) ∧
    (∀ e, (SaveTransaction s tx).snd = some e →
      (SaveTransaction s tx).fst = s) := by
  refine ⟨fun h1 => ?_, fun h1 h2 => ?_, fun h1 h2 => ?_, fun e he => ?_⟩
  · simp [SaveTransaction, h1]
  · simp [SaveTransaction, h1, h2]
  · simp [SaveTransaction, h1, h2]
  · by_cases h1 : mapContains s.idempotencyKeys tx.Event.IdempotencyKey
    · simp [SaveTransaction, h1]
    · by_cases h2 : mapContains s.transactions tx.ID
      · simp [SaveTransaction, h1, h2]
      · simp [SaveTransaction, h1, h2] at he

/-- Witness for C4: committing `tx1` under key `k1` and then a purchase
with the same transaction ID under the fresh key `k2` yields
DuplicateTransactionID and leaves the state unchanged. -/
theorem C4_saveTransaction_check_order_witness :
    SaveTransaction (SaveTransaction emptyRepo (fixturePurchase "tx1" "k1" 1000)).fst
        (fixturePurchase "tx1" "k2" 1000) =
      ((SaveTransaction emptyRepo (fixturePurchase "tx1" "k1" 1000)).fst,
        some .duplicateTransactionID) :=
  (C4_saveTransaction_check_order
      (SaveTransaction emptyRepo (fixturePurchase "tx1" "k1" 1000)).fst
      (fixturePurchase "tx1" "k2" 1000)).2.1 (by decide) (by decide)

/-- Claim C10: a command whose declared transaction type is not PURCHASE,
REVERSAL_PURCHASE or REFUND fails with InvalidTransactionType before any
domain-object construction or ledger access, leaving the ledger state
unchanged. -/
theorem C10_unknown_type_rejected (s : RepoState)
    (cmd : ProcessTransactionCommand)
    (h1 : cmd.TransactionType ≠ TypePurchase)
    (h2 : cmd.TransactionType ≠ TypeReversalPurchase)
    (h3 : cmd.TransactionType ≠ TypeRefund) :
    ProcessTransaction s cmd = (s, emptyResult, some .invalidTransactionType) := by
  simp [ProcessTransaction, h1, h2, h3]

/-- Witness for C10: the type `UNKNOWN` (as in `TestInvalidTransactionType`)
is rejected on the empty ledger. -/
theorem C10_unknown_type_rejected_witness :
    ProcessTransaction emptyRepo
        { makePurchaseCmd "tx1" StatusApproved "idem1" 1000 with
            TransactionType := "UNKNOWN" } =
      (emptyRepo, emptyResult, some .invalidTransactionType) :=
  C10_unknown_type_rejected emptyRepo _ (by decide) (by decide) (by decide)

/-- Counterexample to claim C9: both operands are constructible Money
values (`NewMoney` accepts any non-negative int64), yet `Add` returns the
wrapped int64 value `math.MinInt64`, not the integer sum `2^63`. -/
theorem C9_counterexample_overflowing_add :
    Money.Add ⟨9223372036854775807, "BRL"⟩ ⟨1, "BRL"⟩ =
      .ok ⟨-9223372036854775808, "BRL"⟩ ∧
    (9223372036854775807 : Int) + 1 ≠ (-9223372036854775808 : Int) := by
  exact ⟨rfl, by decide⟩

/-- Claim C9 (amended): `Add` and `GreaterThan` fail with CurrencyMismatch
exactly when the currency strings differ under case-sensitive comparison,
and never coerce across currencies; when the currencies are equal, `Add`
returns a Money with the same currency whose amount is the 64-bit
two's-complement wrap of the sum of the two amounts (equal to the sum
whenever that sum fits in int64). -/
theorem C9_money_operations (a b : Money) :
    (a.Currency ≠ b.Currency →
      a.Add b = .error .currencyMismatch ∧
      a.GreaterThan b = .error .currencyMismatch) ∧
    (a.Currency = b.Currency →
      a.Add b = .ok ⟨wrap64 (a.Amount + b.Amount), a.Currency⟩ ∧
      a.GreaterThan b = .ok (decide (a.Amount > b.Amount))) := by
  constructor
  · intro h
    exact ⟨by simp [Money.Add, h], by simp [Money.GreaterThan, h]⟩
  · intro h
    exact ⟨by simp [Money.Add, h], by simp [Money.GreaterThan, h]⟩

/-- Witness for C9: 100 BRL + 50 BRL adds to 150 BRL, and comparing BRL
against USD fails with CurrencyMismatch. -/
theorem C9_money_operations_witness :
    Money.Add ⟨100, "BRL"⟩ ⟨50, "BRL"⟩ = .ok ⟨150, "BRL"⟩ ∧
    Money.GreaterThan ⟨100, "BRL"⟩ ⟨50, "USD"⟩ = .error .currencyMismatch := by
  constructor
  · have h := (C9_money_operations ⟨100, "BRL"⟩ ⟨50, "BRL"⟩).2 rfl
    rw [h.1]
    norm_num [wrap64]
  · exact ((C9_money_operations ⟨100, "BRL"⟩ ⟨50, "USD"⟩).1 (by decide)).2

/-- Counterexample to claim C6: an existing approved total of 6000 BRL
against an approved 10000 BRL purchase, plus an approved refund of
`math.MaxInt64` cents: the integer sum exceeds the purchase amount, but the
int64 running total wraps negative and validation succeeds. -/
theorem C6_counterexample_overflow :
    Adjustment.ValidateAgainstPurchase
        (fixtureAdjustment "adj1" "tx1" "k2" StatusApproved 9223372036854775807)
        (fixturePurchase "tx1" "k1" 10000) ⟨6000, "BRL"⟩ = none ∧
    (6000 : Int) + 9223372036854775807 > 10000 := by
  exact ⟨rfl, by decide⟩

/-- Claim C6 (amended): `ValidateAgainstPurchase` returns
PurchaseNotApproved when the original cannot receive adjustments; succeeds
unconditionally for a non-APPROVED adjustment; and otherwise — given
matching currencies — fails with ExceedsOriginalAmount exactly when the
64-bit wrapping sum of the existing approved total and the adjustment's
local amount exceeds the purchase's local amount (equality allowed), and
succeeds otherwise. -/
theorem C6_validate_against_purchase (a : Adjustment) (original : Transaction)
    (existingTotal : Money)
    (hc1 : existingTotal.Currency = a.Amount.Local.Currency)
    (hc2 : existingTotal.Currency = original.Amount.Local.Currency) :
    (original.CanReceiveAdjustment = false →
      a.ValidateAgainstPurchase original existingTotal =
        some .purchaseNotApproved) ∧
    (original.CanReceiveAdjustment = true → a.Status ≠ StatusApproved →
      a.ValidateAgainstPurchase original existingTotal = none) ∧
    (original.CanReceiveAdjustment = true → a.Status = StatusApproved →
      (a.ValidateAgainstPurchase original existingTotal =
          some .exceedsOriginalAmount ↔
        wrap64 (existingTotal.Amount + a.Amount.Local.Amount) >
          original.Amount.Local.Amount) ∧
      (a.ValidateAgainstPurchase original existingTotal = none ↔
        ¬ wrap64 (existingTotal.Amount + a.Amount.Local.Amount) >
          original.Amount.Local.Amount)) := by
  refine ⟨fun h => ?_, fun h hs => ?_, fun h hs => ?_⟩
  · simp [Adjustment.ValidateAgainstPurchase, h]
  · simp [Adjustment.ValidateAgainstPurchase, h, hs]
  · have hstep : a.ValidateAgainstPurchase original existingTotal =
        if wrap64 (existingTotal.Amount + a.Amount.Local.Amount) >
            original.Amount.Local.Amount
        then some .exceedsOriginalAmount else none := by
      simp [Adjustment.ValidateAgainstPurchase, h, hs, Money.Add,
        Money.GreaterThan, hc1, hc2, hc1.symm.trans hc2]
    by_cases hgt : wrap64 (existingTotal.Amount + a.Amount.Local.Amount) >
        original.Amount.Local.Amount
    · simp [hstep, hgt]
    · simp [hstep, hgt]

/-- Witness for C6: an approved 15000-cent refund against an approved
10000 BRL purchase with existing total 0 fails with ExceedsOriginalAmount. -/
theorem C6_validate_against_purchase_witness :
    Adjustment.ValidateAgainstPurchase
        (fixtureAdjustment "adj1" "tx1" "k2" StatusApproved 15000)
        (fixturePurchase "tx1" "k1" 10000) ⟨0, "BRL"⟩ =
      some .exceedsOriginalAmount :=
  (((C6_validate_against_purchase
        (fixtureAdjustment "adj1" "tx1" "k2" StatusApproved 15000)
        (fixturePurchase "tx1" "k1" 10000) ⟨0, "BRL"⟩ rfl rfl).2.2
      (by decide) rfl).1).mpr (by decide)

/-- Counterexample to claim C2: after committing the refund `adj1` under
key `ka`, committing an adjustment with the same transaction ID `adj1`
under the different key `kb` succeeds instead of failing with
DuplicateTransactionID, and `adj1` ends up associated with two idempotency
keys. -/
theorem C2_counterexample_adjustment_id_reuse :
    (SaveAdjustment
        (SaveAdjustment emptyRepo
          (fixtureAdjustment "adj1" "tx1" "ka" StatusApproved 500)).fst
        (fixtureAdjustment "adj1" "tx1" "kb" StatusApproved 500)).snd = none ∧
    mapLookup
      (SaveAdjustment
        (SaveAdjustment emptyRepo
          (fixtureAdjustment "adj1" "tx1" "ka" StatusApproved 500)).fst
        (fixtureAdjustment "adj1" "tx1" "kb" StatusApproved 500)).fst.idempotencyKeys
      "ka" = some "adj1" ∧
    mapLookup
      (SaveAdjustment
        (SaveAdjustment emptyRepo
          (fixtureAdjustment "adj1" "tx1" "ka" StatusApproved 500)).fst
        (fixtureAdjustment "adj1" "tx1" "kb" StatusApproved 500)).fst.idempotencyKeys
      "kb" = some "adj1" := by
  exact ⟨rfl, rfl, rfl⟩

/-- Claim C2 (amended): the purchase commit path enforces the
transaction-ID invariant — resubmitting an existing transaction ID under a
fresh idempotency key fails with DuplicateTransactionID — but the
adjustment commit path checks only the idempotency key: `SaveAdjustment`
succeeds whenever its key is fresh, regardless of any transaction-ID
collision. -/
theorem C2_transaction_id_conflict (s : RepoState) (tx : Transaction)
    (adj : Adjustment)
    (htk : mapContains s.idempotencyKeys tx.Event.IdempotencyKey = false)
    (hid : mapContains s.transactions tx.ID = true)
    (hak : mapContains s.idempotencyKeys adj.Event.IdempotencyKey = false) :
    SaveTransaction s tx = (s, some .duplicateTransactionID) ∧
    (SaveAdjustment s adj).snd = none := by
  constructor
  · simp [SaveTransaction, htk, hid]
  · simp [SaveAdjustment, hak]

/-- Witness for C2: on a ledger holding purchase `tx1` under key `k1`,
resubmitting `tx1` under `k2` conflicts while an adjustment reusing the ID
`adj9` under a fresh key commits. -/
theorem C2_transaction_id_conflict_witness :
    SaveTransaction (SaveTransaction emptyRepo (fixturePurchase "tx1" "k1" 1000)).fst
        (fixturePurchase "tx1" "k2" 1000) =
      ((SaveTransaction emptyRepo (fixturePurchase "tx1" "k1" 1000)).fst,
        some .duplicateTransactionID) ∧
    (SaveAdjustment (SaveTransaction emptyRepo (fixturePurchase "tx1" "k1" 1000)).fst
        (fixtureAdjustment "adj9" "tx1" "k3" StatusApproved 500)).snd = none :=
  C2_transaction_id_conflict
    (SaveTransaction emptyRepo (fixturePurchase "tx1" "k1" 1000)).fst
    (fixturePurchase "tx1" "k2" 1000)
    (fixtureAdjustment "adj9" "tx1" "k3" StatusApproved 500)
    (by decide) (by decide) (by decide)

/-- Claim C8: for a REVERSAL_PURCHASE or REFUND command, an empty
`originalTransactionId` fails with OriginalTransactionRequired before any
ledger lookup (the rejection fires even when the idempotency key is
already present), and a non-empty reference to a purchase absent from the
ledger fails with TransactionNotFound once the advisory idempotency check
passes; in both cases the ledger state is unchanged. -/
theorem C8_adjustment_reference_checks (s : RepoState)
    (cmd : ProcessTransactionCommand)
    (ht : cmd.TransactionType = TypeReversalPurchase ∨
      cmd.TransactionType = TypeRefund) :
    (cmd.OriginalTransactionID = "" →
      ProcessTransaction s cmd =
        (s, emptyResult, some .originalTransactionRequired)) ∧
    (cmd.OriginalTransactionID ≠ "" →
      mapLookup s.idempotencyKeys cmd.IdempotencyKey = none →
      mapLookup s.transactions cmd.OriginalTransactionID = none →
      ProcessTransaction s cmd =
        (s, emptyResult, some .transactionNotFound)) := by
  constructor
  · intro h0
    rcases ht with h | h <;>
      simp [ProcessTransaction, processAdjustment, h, h0, TypePurchase,
        TypeReversalPurchase, TypeRefund]
  · intro h0 hk htx
    rcases ht with h | h <;>
      simp [ProcessTransaction, processAdjustment, h, h0, TypePurchase,
        TypeReversalPurchase, TypeRefund, GetByIdempotencyKey, hk,
        GetTransactionByID, htx]

/-- Witness for C8: on the empty ledger, a refund with an empty reference
fails with OriginalTransactionRequired, and a refund referencing the
absent purchase `tx1` fails with TransactionNotFound. -/
theorem C8_adjustment_reference_checks_witness :
    ProcessTransaction emptyRepo
        (makeAdjustCmd "adj1" TypeRefund StatusApproved "" "ka" 500) =
      (emptyRepo, emptyResult, some .originalTransactionRequired) ∧
    ProcessTransaction emptyRepo
        (makeAdjustCmd "adj1" TypeRefund StatusApproved "tx1" "ka" 500) =
      (emptyRepo, emptyResult, some .transactionNotFound) :=
  ⟨(C8_adjustment_reference_checks emptyRepo _ (Or.inr rfl)).1 rfl,
   (C8_adjustment_reference_checks emptyRepo _ (Or.inr rfl)).2
     (by decide) rfl rfl⟩

/-- The purchase-creation path as one if-chain: negative amount first (in
`NewMoney`), then the `NewPurchase` checks in source order. -/
theorem purchaseFromAmount_eq (a : Int)
    (currency id status : String) (merchant : Merchant) (event : Event)
    (userID cardID country currency2 pointOfSale : String) :
    purchaseFromAmount a currency id status merchant event
        userID cardID country currency2 pointOfSale =
      if a < 0 then .error .negativeAmount
      else if id = "" then .error .invalidInput
      else if event.ID = "" ∨ event.IdempotencyKey = "" then .error .invalidInput
      else if a < MinPurchaseAmount ∨ a > MaxPurchaseAmount then
        .error .amountOutOfRange
      else .ok
        { ID := id, TxType := TypePurchase, Status := status,
          Amount := ⟨⟨a, currency⟩, ⟨a, currency⟩, ⟨a, currency⟩, ⟨a, currency⟩⟩,
          Merchant := merchant, Event := event, OriginalTransactionID := "",
          UserID := userID, CardID := cardID, Country := country,
          Currency := currency2, PointOfSale := pointOfSale } := by
  unfold purchaseFromAmount NewMoney NewPurchase
  by_cases ha : a < 0
  · simp [ha]
  · simp [ha]

/-- Claim C5: purchase creation through `NewPurchase` (with `NewMoney`
first, as `processPurchase` sequences them) succeeds iff
100 ≤ a ≤ 500000; any non-negative amount outside that range (such as 99
or 500001) fails with AmountOutOfRange; any negative amount (such as -1)
fails with NegativeAmount raised by Money construction before the range
check runs, so a negative amount never yields AmountOutOfRange. -/
theorem C5_purchase_amount_range (a : Int)
    (currency id status : String) (merchant : Merchant) (event : Event)
    (userID cardID country currency2 pointOfSale : String)
    (hid : id ≠ "") (hev : event.ID ≠ "") (hkey : event.IdempotencyKey ≠ "") :
    ((∃ t, purchaseFromAmount a currency id status merchant event
        userID cardID country currency2 pointOfSale = .ok t) ↔
      (MinPurchaseAmount ≤ a ∧ a ≤ MaxPurchaseAmount)) ∧
    (a < 0 →
      purchaseFromAmount a currency id status merchant event
        userID cardID country currency2 pointOfSale =
        .error .negativeAmount) ∧
    (0 ≤ a → (a < MinPurchaseAmount ∨ a > MaxPurchaseAmount) →
      purchaseFromAmount a currency id status merchant event
        userID cardID country currency2 pointOfSale =
        .error .amountOutOfRange) := by
  have heq := purchaseFromAmount_eq a currency id status merchant event
    userID cardID country currency2 pointOfSale
  by_cases ha : a < 0
  · rw [if_pos ha] at heq
    refine ⟨⟨fun ⟨t, ht⟩ => by rw [heq] at ht; simp at ht, fun hr => ?_⟩,
      fun _ => heq, fun h0 _ => by omega⟩
    exfalso
    have := hr.1
    simp [MinPurchaseAmount] at this
    omega
  · rw [if_neg ha, if_neg hid, if_neg (by simp [hev, hkey])] at heq
    by_cases hr : a < MinPurchaseAmount ∨ a > MaxPurchaseAmount
    · rw [if_pos hr] at heq
      refine ⟨⟨fun ⟨t, ht⟩ => by rw [heq] at ht; simp at ht, fun hin => ?_⟩,
        fun hneg => absurd hneg ha, fun _ _ => heq⟩
      exfalso
      rcases hr with h | h
      · exact absurd h (not_lt.mpr hin.1)
      · exact absurd h (not_lt.mpr hin.2)
    · rw [if_neg hr] at heq
      refine ⟨⟨fun _ => ⟨not_lt.mp fun hc => hr (Or.inl hc),
          not_lt.mp fun hc => hr (Or.inr hc)⟩, fun _ => ⟨_, heq⟩⟩,
        fun hneg => absurd hneg ha, fun _ hcon => absurd hcon hr⟩

/-- Witness for C5: 99 and 500001 fail with AmountOutOfRange, -1 fails
with NegativeAmount, and 1000 succeeds. -/
theorem C5_purchase_amount_range_witness :
    purchaseFromAmount 99 "BRL" "tx1" StatusApproved
        ⟨"m1", "", "", "Store", "", ""⟩ ⟨"evt1", 0, "idem1"⟩
        "u1" "card1" "BR" "BRL" "POS" = .error .amountOutOfRange ∧
    purchaseFromAmount 500001 "BRL" "tx1" StatusApproved
        ⟨"m1", "", "", "Store", "", ""⟩ ⟨"evt1", 0, "idem1"⟩
        "u1" "card1" "BR" "BRL" "POS" = .error .amountOutOfRange ∧
    purchaseFromAmount (-1) "BRL" "tx1" StatusApproved
        ⟨"m1", "", "", "Store", "", ""⟩ ⟨"evt1", 0, "idem1"⟩
        "u1" "card1" "BR" "BRL" "POS" = .error .negativeAmount ∧
    (∃ t, purchaseFromAmount 1000 "BRL" "tx1" StatusApproved
        ⟨"m1", "", "", "Store", "", ""⟩ ⟨"evt1", 0, "idem1"⟩
        "u1" "card1" "BR" "BRL" "POS" = .ok t) :=
  ⟨(C5_purchase_amount_range 99 "BRL" "tx1" StatusApproved _ _
      "u1" "card1" "BR" "BRL" "POS" (by decide) (by decide) (by decide)).2.2
      (by decide) (Or.inl (by decide)),
   (C5_purchase_amount_range 500001 "BRL" "tx1" StatusApproved _ _
      "u1" "card1" "BR" "BRL" "POS" (by decide) (by decide) (by decide)).2.2
      (by decide) (Or.inr (by decide)),
   (C5_purchase_amount_range (-1) "BRL" "tx1" StatusApproved _ _
      "u1" "card1" "BR" "BRL" "POS" (by decide) (by decide) (by decide)).2.1
      (by decide),
   (C5_purchase_amount_range 1000 "BRL" "tx1" StatusApproved _ _
      "u1" "card1" "BR" "BRL" "POS" (by decide) (by decide) (by decide)).1.mpr
      ⟨by decide, by decide⟩⟩

/-- A key absent from an association-list map heads no entry. -/
theorem lookup_none_keys {α : Type} (l : List (String × α)) (k : String)
    (h : mapLookup l k = none) : ∀ p ∈ l, ¬ p.fst = k := by
  unfold mapLookup at h
  rw [Option.map_eq_none', List.find?_eq_none] at h
  intro p hp
  simpa using h p hp

/-- A successful repository write records its idempotency key. -/
theorem applyOp_success_contains (r : RepoState) (op : RepoOp)
    (h : (applyOp r op).snd = none) :
    mapContains (applyOp r op).fst.idempotencyKeys op.key = true := by
  cases op with
  | saveTx tx =>
    simp only [applyOp, SaveTransaction] at h ⊢
    by_cases h1 : mapContains r.idempotencyKeys tx.Event.IdempotencyKey = true
    · rw [if_pos h1] at h
      exact absurd h (by simp)
    · rw [if_neg h1] at h ⊢
      by_cases h2 : mapContains r.transactions tx.ID = true
      · rw [if_pos h2] at h
        exact absurd h (by simp)
      · rw [if_neg h2]
        simp [RepoOp.key, mapContains, mapLookup_insert_self]
  | saveAdj adj =>
    simp only [applyOp, SaveAdjustment] at h ⊢
    by_cases h1 : mapContains r.idempotencyKeys adj.Event.IdempotencyKey = true
    · rw [if_pos h1] at h
      exact absurd h (by simp)
    · rw [if_neg h1]
      simp [RepoOp.key, mapContains, mapLookup_insert_self]

/-- Every repository write preserves the presence of any idempotency key. -/
theorem applyOp_preserves_key (r : RepoState) (op : RepoOp) (k : String)
    (h : mapContains r.idempotencyKeys k = true) :
    mapContains (applyOp r op).fst.idempotencyKeys k = true := by
  have hins : ∀ (k' : String) (v : String),
      mapContains (mapInsert r.idempotencyKeys k' v) k = true := by
    intro k' v
    by_cases hk : k = k'
    · subst hk
      simp [mapContains, mapLookup_insert_self]
    · unfold mapContains
      rw [mapLookup_insert_ne _ _ _ _ hk]
      exact h
  cases op with
  | saveTx tx =>
    simp only [applyOp, SaveTransaction]
    by_cases h1 : mapContains r.idempotencyKeys tx.Event.IdempotencyKey = true
    · rw [if_pos h1]
      exact h
    · rw [if_neg h1]
      by_cases h2 : mapContains r.transactions tx.ID = true
      · rw [if_pos h2]
        exact h
      · rw [if_neg h2]
        exact hins _ _
  | saveAdj adj =>
    simp only [applyOp, SaveAdjustment]
    by_cases h1 : mapContains r.idempotencyKeys adj.Event.IdempotencyKey = true
    · rw [if_pos h1]
      exact h
    · rw [if_neg h1]
      exact hins _ _

/-- Running any sequence of writes preserves the presence of a key. -/
theorem runOps_preserves_key (r : RepoState) (ops : List RepoOp) (k : String)
    (h : mapContains r.idempotencyKeys k = true) :
    mapContains (runOps r ops).idempotencyKeys k = true := by
  induction ops generalizing r with
  | nil => simpa [runOps] using h
  | cons op rest ih =>
    simp only [runOps, List.foldl_cons]
    exact ih _ (applyOp_preserves_key r op k h)

/-- A write whose idempotency key is already present fails with
DuplicateIdempotencyKey and leaves the state unchanged, in both save
paths. -/
theorem applyOp_duplicate_key (r : RepoState) (op : RepoOp)
    (h : mapContains r.idempotencyKeys op.key = true) :
    applyOp r op = (r, some .duplicateIdempotencyKey) := by
  cases op with
  | saveTx tx =>
    have h' : mapContains r.idempotencyKeys tx.Event.IdempotencyKey = true := h
    simp only [applyOp, SaveTransaction]
    rw [if_pos h']
  | saveAdj adj =>
    have h' : mapContains r.idempotencyKeys adj.Event.IdempotencyKey = true := h
    simp only [applyOp, SaveAdjustment]
    rw [if_pos h']

/-- Claim C7: once a commit with a given idempotency key succeeds, every
later commit attempt carrying that key — after any interleaving of other
repository writes, which is how the write lock serialises concurrent
callers — fails with DuplicateIdempotencyKey inside its own critical
section and changes nothing; hence at most one commit per key ever
succeeds. -/
theorem C7_idempotency_key_single_winner (r : RepoState) (op : RepoOp)
    (ops : List RepoOp) (op2 : RepoOp)
    (hsucc : (applyOp r op).snd = none) (hk : op2.key = op.key) :
    applyOp (runOps (applyOp r op).fst ops) op2 =
      (runOps (applyOp r op).fst ops, some .duplicateIdempotencyKey) := by
  apply applyOp_duplicate_key
  rw [hk]
  exact runOps_preserves_key _ ops _ (applyOp_success_contains r op hsucc)

/-- Witness for C7: after committing purchase `tx1` under key `k1`, a
second purchase `tx2` under the same key loses with
DuplicateIdempotencyKey. -/
theorem C7_idempotency_key_single_winner_witness :
    applyOp (applyOp emptyRepo (.saveTx (fixturePurchase "tx1" "k1" 1000))).fst
        (.saveTx (fixturePurchase "tx2" "k1" 2000)) =
      ((applyOp emptyRepo (.saveTx (fixturePurchase "tx1" "k1" 1000))).fst,
        some .duplicateIdempotencyKey) := by
  have h := C7_idempotency_key_single_winner emptyRepo
    (.saveTx (fixturePurchase "tx1" "k1" 1000)) []
    (.saveTx (fixturePurchase "tx2" "k1" 2000)) (by decide) (by decide)
  simpa [runOps] using h

/-- Claim C3: submitting the same (transactionId, idempotencyKey) purchase
twice yields first a committed result with Idempotent = false and no
error, then the same transaction ID with Idempotent = true signalled via
DuplicateIdempotencyKey, the ledger unchanged by the replay and holding
exactly one entry for that transaction ID. -/
theorem C3_purchase_idempotent_replay (s : RepoState)
    (cmd : ProcessTransactionCommand)
    (ht : cmd.TransactionType = TypePurchase)
    (hkey : mapLookup s.idempotencyKeys cmd.IdempotencyKey = none)
    (hid : mapLookup s.transactions cmd.TransactionID = none)
    (hnoid : ∀ t ∈ ListTransactions s, t.ID ≠ cmd.TransactionID)
    (hmin : MinPurchaseAmount ≤ cmd.LocalAmount)
    (hmax : cmd.LocalAmount ≤ MaxPurchaseAmount)
    (hT : 0 ≤ cmd.TxAmount) (hS : 0 ≤ cmd.SettlementAmount)
    (hO : 0 ≤ cmd.OriginalAmount)
    (htid : cmd.TransactionID ≠ "") (hev : cmd.EventID ≠ "")
    (hk : cmd.IdempotencyKey ≠ "") :
    ∃ s1,
      ProcessTransaction s cmd = (s1, ⟨cmd.TransactionID, false⟩, none) ∧
      ProcessTransaction s1 cmd =
        (s1, ⟨cmd.TransactionID, true⟩, some .duplicateIdempotencyKey) ∧
      ((ListTransactions s1).filter
          (fun t => t.ID = cmd.TransactionID)).length = 1 ∧
      (ListTransactions s1).length = (ListTransactions s).length + 1 := by
  have hL0 : ¬ cmd.LocalAmount < 0 := by
    simp [MinPurchaseAmount] at hmin
    omega
  have hrange : ¬ (cmd.LocalAmount < MinPurchaseAmount ∨
      cmd.LocalAmount > MaxPurchaseAmount) := by
    rintro (h | h)
    · exact absurd h (not_lt.mpr hmin)
    · exact absurd h (not_lt.mpr hmax)
  have hfe : s.transactions.filter (fun p => p.fst ≠ cmd.TransactionID) =
      s.transactions := filter_ne_of_lookup_none _ _ hid
  refine ⟨{ s with
      transactions :=
        mapInsert s.transactions cmd.TransactionID (purchaseOfCommand cmd),
      idempotencyKeys :=
        mapInsert s.idempotencyKeys cmd.IdempotencyKey cmd.TransactionID },
    ?_, ?_, ?_, ?_⟩
  · simp [ProcessTransaction, ht, processPurchase, GetByIdempotencyKey, hkey,
      buildAmount, NewMoney, hL0, not_lt.mpr hT, not_lt.mpr hS,
      not_lt.mpr hO, NewPurchase, htid, hev, hk, hrange, SaveTransaction,
      mapContains, hid, buildEvent, buildMerchant, purchaseOfCommand]
  · simp [ProcessTransaction, ht, processPurchase, GetByIdempotencyKey,
      mapLookup_insert_self]
  · have hpre : ((s.transactions.map Prod.snd).filter
        (fun t => t.ID = cmd.TransactionID)) = [] := by
      rw [List.filter_eq_nil_iff]
      intro t htmem
      simpa using hnoid t (by simpa [ListTransactions] using htmem)
    simp [ListTransactions, mapInsert, hfe, List.filter_append, hpre,
      purchaseOfCommand]
    intro a x hmem _
    exact hnoid a
      (by simpa [ListTransactions] using List.mem_map_of_mem Prod.snd hmem)
  · simp [ListTransactions, mapInsert, hfe]
    intro a b hmem
    simpa using lookup_none_keys s.transactions cmd.TransactionID hid (a, b) hmem

/-- Witness for C3: the duplicate-delivery scenario of
`TestProcessDuplicateIdempotencyKey` — purchase `tx1` under `idem1`
delivered twice on the empty ledger. -/
theorem C3_purchase_idempotent_replay_witness :
    ∃ s1,
      ProcessTransaction emptyRepo
          (makePurchaseCmd "tx1" StatusApproved "idem1" 1000) =
        (s1, ⟨"tx1", false⟩, none) ∧
      ProcessTransaction s1 (makePurchaseCmd "tx1" StatusApproved "idem1" 1000) =
        (s1, ⟨"tx1", true⟩, some .duplicateIdempotencyKey) ∧
      ((ListTransactions s1).filter (fun t => t.ID = "tx1")).length = 1 ∧
      (ListTransactions s1).length = (ListTransactions emptyRepo).length + 1 :=
  C3_purchase_idempotent_replay emptyRepo
    (makePurchaseCmd "tx1" StatusApproved "idem1" 1000)
    rfl rfl rfl (by intro t htm; simp [ListTransactions, emptyRepo] at htm)
    (by decide) (by decide) (by decide) (by decide) (by decide)
    (by decide) (by decide) (by decide)

/-- Claim C1 is violated by the running code: the overflow trace — an
approved 10000-cent purchase, an approved 1-cent refund, then an approved
refund of 9223372036854775807 cents — is accepted end to end, because the
int64 running total wraps to `math.MinInt64` and passes the budget check;
afterwards the approved adjustments of `tx1` sum to 2^63 cents, exceeding
the purchase's 10000 cents. -/
theorem C1_overflow_trace_violates_budget :
    (ProcessTransaction emptyRepo overflowCmd1).2.2 = none ∧
    (ProcessTransaction overflowState1 overflowCmd2).2.2 = none ∧
    (ProcessTransaction overflowState2 overflowCmd3).2.2 = none ∧
    (mapLookup overflowState3.transactions "tx1").map
        (fun t => t.Amount.Local.Amount) = some 10000 ∧
    approvedLocalSum (GetAdjustmentsByTransactionID overflowState3 "tx1") =
      9223372036854775808 ∧
    (9223372036854775808 : Int) > 10000 :=
  ⟨rfl, rfl, rfl, rfl, rfl, by decide⟩

end Pomelo
